import Mathlib

/-!
Shallow embedding of the order-lifecycle core of `order-service-v2`.

Sources embedded:
  * `src/domain/entities/order.py` — the `Order` aggregate (`OrderStatus`,
    `Order.create`, `add_item`, `remove_item`, `update_status`, `cancel`,
    `_recalculate_total`).
  * `src/domain/entities/order_item.py` — `OrderItem`.
  * `src/domain/value_objects/order_total.py` — `OrderTotal`.
  * `src/domain/value_objects/delivery_address.py` — `DeliveryAddress`.
  * `src/application/services/order_service.py` — the orchestration service
    (`create_order`, `add_item_to_order`, `remove_item_from_order`,
    `confirm_order`).

Modelling conventions:
  * UUIDs and timestamps are opaque; both are embedded as `Nat`.  Operations
    of the source that call `uuid4()` / `datetime.now()` take the fresh value
    explicitly (`fresh_id`, `now`).
  * Python `float` prices are embedded as exact rationals `ℚ`; the float
    literal `0.10` of the source is the rational `1/10` (`taxRate`).  Every
    arithmetic identity proved below is expression-level in the source
    (the stored fields are literally the computed expressions), so it is
    insensitive to this choice of number representation.
  * Python exceptions become the `Except DomainError` monad; the exception
    classes of `src/domain/exceptions/domain_exceptions.py` (and the bare
    `ValueError` raised by the aggregate) become `DomainError` constructors.
    The unavailable-item identifiers carried in an exception's `details`
    map are embedded as a `List Nat` of identifiers.
  * The Python `Dict[UUID, bool]` availability mapping returned by the
    inventory port is embedded as an association list `List (Nat × Bool)`
    whose order is the dict's (insertion-ordered) iteration order;
    `dict.items()` iterates the list, `dict.get k default` is a first-match
    lookup with a default.
  * The orchestration service's collaborators (repository, inventory port,
    event publisher) are external; each service operation takes the
    collaborator responses as inputs (the repository's `find_by_id` result,
    the availability mapping the inventory call would return) and records the
    outward calls it performs — inventory check, `save`, `update`,
    `publish_event` — as an ordered `Effect` trace.  `save`/`update` are
    modelled as succeeding and returning their argument unchanged.
-/

namespace OrderServiceV2

/-- `OrderStatus` enum of `src/domain/entities/order.py`. -/
inductive OrderStatus where
  | CREATED
  | PENDING
  | CONFIRMED
  | PREPARING
  | READY
  | DELIVERED
  | CANCELLED
deriving DecidableEq, Repr

/-- The `.value` string of each `OrderStatus` member. -/
def OrderStatus.value : OrderStatus → String
  | .CREATED => "CREATED"
  | .PENDING => "PENDING"
  | .CONFIRMED => "CONFIRMED"
  | .PREPARING => "PREPARING"
  | .READY => "READY"
  | .DELIVERED => "DELIVERED"
  | .CANCELLED => "CANCELLED"

/-- `OrderItem` dataclass of `src/domain/entities/order_item.py`. -/
structure OrderItem where
  id : Nat
  product_id : Nat
  name : String
  quantity : Nat
  unit_price : ℚ
  total_price : ℚ
  notes : Option String
  created_at : Nat
deriving DecidableEq, Repr

/-- `DeliveryAddress` frozen dataclass of
`src/domain/value_objects/delivery_address.py`. -/
structure DeliveryAddress where
  street : String
  city : String
  state : String
  postal_code : String
  country : String
  apartment : Option String
  instructions : Option String
deriving DecidableEq, Repr

/-- `OrderTotal` frozen dataclass of
`src/domain/value_objects/order_total.py`. -/
structure OrderTotal where
  subtotal : ℚ
  tax : ℚ
  total : ℚ
deriving DecidableEq, Repr

/-- `Order` dataclass of `src/domain/entities/order.py`. -/
structure Order where
  id : Nat
  customer_id : Nat
  items : List OrderItem
  status : OrderStatus
  delivery_address : Option DeliveryAddress
  total : OrderTotal
  notes : Option String
  created_at : Nat
  updated_at : Option Nat
deriving DecidableEq, Repr

/-- The domain exception taxonomy
(`src/domain/exceptions/domain_exceptions.py`), plus the bare `ValueError`
the aggregate methods raise.  `inventoryValidation` carries the
`unavailable_items` identifier list from the exception's `details` map. -/
inductive DomainError where
  | orderNotFound (message : String)
  | invalidOrderState (message : String)
  | inventoryValidation (message : String) (unavailable_items : List Nat)
  | orderCreation (message : String)
  | valueError (message : String)
deriving DecidableEq, Repr

/-- `Except.isOk` as a plain Bool, for stating success of fallible steps. -/
def isOkB : Except DomainError Order → Bool
  | .ok _ => true
  | .error _ => false

/-- The source's hard-coded flat rate: the Python float literal `0.10`. -/
def taxRate : ℚ := 1 / 10

/-- `sum(item.total_price for item in items)` — Python `sum` is a left fold
from `0`. -/
def sumTotalPrice (items : List OrderItem) : ℚ :=
  items.foldl (fun acc it => acc + it.total_price) 0

/-- The total computation shared by `Order.create` and
`Order._recalculate_total`: `subtotal = Σ total_price`,
`tax = subtotal * 0.10`, `total = subtotal + tax`. -/
def computeOrderTotal (items : List OrderItem) : OrderTotal :=
  let subtotal := sumTotalPrice items
  let tax := subtotal * taxRate
  { subtotal := subtotal, tax := tax, total := subtotal + tax }

/-- `Order.create` (order.py lines 35-61).  `uuid4()` and `datetime.now()`
are the explicit `fresh_id` / `now` arguments; the `items or []` default is
the caller passing `[]`. -/
def Order.create (customer_id : Nat) (items : List OrderItem)
    (delivery_address : Option DeliveryAddress) (notes : Option String)
    (fresh_id : Nat) (now : Nat) : Order :=
  { id := fresh_id
    customer_id := customer_id
    items := items
    status := OrderStatus.CREATED
    delivery_address := delivery_address
    total := computeOrderTotal items
    notes := notes
    created_at := now
    updated_at := none }

/-- `Order.add_item` (order.py lines 63-69): state guard, append,
`_recalculate_total`. -/
def Order.add_item (o : Order) (item : OrderItem) : Except DomainError Order :=
  if o.status ≠ OrderStatus.CREATED ∧ o.status ≠ OrderStatus.PENDING then
    .error (.valueError
      "Cannot add items to an order that is not in CREATED or PENDING status")
  else
    .ok { o with items := o.items ++ [item]
                 total := computeOrderTotal (o.items ++ [item]) }

/-- `Order.remove_item` (order.py lines 71-77): state guard, filter out all
items whose `id` matches, `_recalculate_total`. -/
def Order.remove_item (o : Order) (item_id : Nat) : Except DomainError Order :=
  if o.status ≠ OrderStatus.CREATED ∧ o.status ≠ OrderStatus.PENDING then
    .error (.valueError
      "Cannot remove items from an order that is not in CREATED or PENDING status")
  else
    .ok { o with items := o.items.filter (fun it => it.id != item_id)
                 total := computeOrderTotal (o.items.filter (fun it => it.id != item_id)) }

/-- `Order.update_status` (order.py lines 79-82): unconditional. -/
def Order.update_status (o : Order) (status : OrderStatus) (now : Nat) : Order :=
  { o with status := status, updated_at := some now }

/-- `Order.cancel` (order.py lines 84-90). -/
def Order.cancel (o : Order) (now : Nat) : Except DomainError Order :=
  if o.status = OrderStatus.DELIVERED then
    .error (.valueError "Cannot cancel an order that has already been delivered")
  else
    .ok { o with status := OrderStatus.CANCELLED, updated_at := some now }

/-- One outward call of the orchestration service, in the order performed. -/
inductive Effect where
  | inventoryCheck (items : List OrderItem)
  | repoSave (o : Order)
  | repoUpdate (o : Order)
  | publish (event_type : String)
deriving DecidableEq, Repr

/-- Result of one orchestration-service operation: the returned order or the
raised exception, together with the ordered trace of outward calls. -/
structure ServiceResult where
  result : Except DomainError Order
  effects : List Effect
deriving Repr

/-- The unavailable-id extraction of `create_order` / `confirm_order`
(order_service.py lines 51 and 218): iterate the mapping's entries and keep
the keys whose value is false. -/
def unavailableIds (availability : List (Nat × Bool)) : List Nat :=
  (availability.filter (fun p => !p.2)).map Prod.fst

/-- `availability.get(key, False)` (order_service.py line 112). -/
def dictGet (availability : List (Nat × Bool)) (key : Nat) : Bool :=
  match availability.lookup key with
  | some b => b
  | none => false

/-- `OrderService.create_order` (order_service.py lines 36-95).
`availability` is the mapping the inventory collaborator returns for this
call; `fresh_id` / `now` feed the factory. -/
def OrderService.create_order (customer_id : Nat) (items : List OrderItem)
    (delivery_address : Option DeliveryAddress) (notes : Option String)
    (availability : List (Nat × Bool)) (fresh_id : Nat) (now : Nat) :
    ServiceResult :=
  if items.isEmpty then
    { result := .error (.orderCreation "Cannot create an order without items")
      effects := [] }
  else
    let unavailable := unavailableIds availability
    if unavailable.isEmpty then
      let order := Order.create customer_id items delivery_address notes fresh_id now
      { result := .ok order
        effects := [.inventoryCheck items, .repoSave order, .publish "order.created"] }
    else
      { result := .error (.inventoryValidation "Some items are not available" unavailable)
        effects := [.inventoryCheck items] }

/-- `OrderService.add_item_to_order` (order_service.py lines 97-124).
`found` is the repository's `find_by_id` response. -/
def OrderService.add_item_to_order (order_id : Nat) (found : Option Order)
    (item : OrderItem) (availability : List (Nat × Bool)) : ServiceResult :=
  match found with
  | none =>
    { result := .error (.orderNotFound
        ("Order with ID " ++ toString order_id ++ " not found"))
      effects := [] }
  | some order =>
    if order.status ≠ OrderStatus.CREATED ∧ order.status ≠ OrderStatus.PENDING then
      { result := .error (.invalidOrderState
          ("Cannot add items to an order with status " ++ order.status.value))
        effects := [] }
    else if dictGet availability item.product_id then
      match order.add_item item with
      | .ok o2 =>
        { result := .ok o2
          effects := [.inventoryCheck [item], .repoUpdate o2] }
      | .error e =>
        { result := .error e, effects := [.inventoryCheck [item]] }
    else
      { result := .error (.inventoryValidation
          ("Item " ++ item.name ++ " is not available") [item.product_id])
        effects := [.inventoryCheck [item]] }

/-- `OrderService.remove_item_from_order` (order_service.py lines 126-145). -/
def OrderService.remove_item_from_order (order_id : Nat) (found : Option Order)
    (item_id : Nat) : ServiceResult :=
  match found with
  | none =>
    { result := .error (.orderNotFound
        ("Order with ID " ++ toString order_id ++ " not found"))
      effects := [] }
  | some order =>
    if order.status ≠ OrderStatus.CREATED ∧ order.status ≠ OrderStatus.PENDING then
      { result := .error (.invalidOrderState
          ("Cannot remove items from an order with status " ++ order.status.value))
        effects := [] }
    else
      match order.remove_item item_id with
      | .ok o2 => { result := .ok o2, effects := [.repoUpdate o2] }
      | .error e => { result := .error e, effects := [] }

/-- `OrderService.confirm_order` (order_service.py lines 207-258): re-check
availability of all current items, then unconditionally set `CONFIRMED`,
persist, publish two events. -/
def OrderService.confirm_order (order_id : Nat) (found : Option Order)
    (availability : List (Nat × Bool)) (now : Nat) : ServiceResult :=
  match found with
  | none =>
    { result := .error (.orderNotFound
        ("Order with ID " ++ toString order_id ++ " not found"))
      effects := [] }
  | some order =>
    let unavailable := unavailableIds availability
    if unavailable.isEmpty then
      let order2 := order.update_status OrderStatus.CONFIRMED now
      { result := .ok order2
        effects := [.inventoryCheck order.items, .repoUpdate order2,
                    .publish "order.status_updated", .publish "order.confirmed"] }
    else
      { result := .error (.inventoryValidation "Some items are not available" unavailable)
        effects := [.inventoryCheck order.items] }

/-- The spec's total invariant, on the stored `total` of an order. -/
def totalInvariant (o : Order) : Prop :=
  o.total.total = o.total.subtotal + o.total.tax ∧
  o.total.tax = o.total.subtotal * taxRate ∧
  o.total.subtotal = sumTotalPrice o.items

instance (o : Order) : Decidable (totalInvariant o) := by
  unfold totalInvariant
  infer_instance

/-! Concrete sample data used by the witness theorems.  `sampleItem` is the
spec's Scenario A item (quantity 2, unit price 10.0, total price 20.0). -/

def sampleItem : OrderItem :=
  { id := 1, product_id := 11, name := "Pizza", quantity := 2
    unit_price := 10, total_price := 20, notes := none, created_at := 0 }

def sampleItem2 : OrderItem :=
  { id := 2, product_id := 12, name := "Soda", quantity := 1
    unit_price := 3, total_price := 3, notes := none, created_at := 0 }

def wOrder : Order := Order.create 5 [sampleItem] none none 9 0

def wConfirmed : Order := { wOrder with status := OrderStatus.CONFIRMED }

def wDelivered : Order := { wOrder with status := OrderStatus.DELIVERED }

def wCancelledIn : Order := { wOrder with status := OrderStatus.CANCELLED }

/-! Helper lemmas shared by the claim theorems. -/

theorem guard_not {o : Order}
    (h : o.status = OrderStatus.CREATED ∨ o.status = OrderStatus.PENDING) :
    ¬ (o.status ≠ OrderStatus.CREATED ∧ o.status ≠ OrderStatus.PENDING) := by
  rcases h with h | h <;> simp [h]

theorem isEmpty_false_of_ne_nil {α : Type} {l : List α} (h : l ≠ []) :
    l.isEmpty = false := by
  cases l
  · exact absurd rfl h
  · rfl

theorem computeOrderTotal_spec (items : List OrderItem) :
    (computeOrderTotal items).total
        = (computeOrderTotal items).subtotal + (computeOrderTotal items).tax ∧
    (computeOrderTotal items).tax = (computeOrderTotal items).subtotal * taxRate ∧
    (computeOrderTotal items).subtotal = sumTotalPrice items := by
  simp [computeOrderTotal]

theorem totalInvariant_of_recalc {o : Order}
    (h : o.total = computeOrderTotal o.items) : totalInvariant o := by
  unfold totalInvariant
  rw [h]
  exact computeOrderTotal_spec o.items

theorem unavailableIds_eq_nil {availability : List (Nat × Bool)}
    (hall : ∀ p ∈ availability, p.2 = true) : unavailableIds availability = [] := by
  unfold unavailableIds
  have hfil : availability.filter (fun p => !p.2) = [] := by
    rw [List.filter_eq_nil_iff]
    intro p hp
    simp [hall p hp]
  rw [hfil]
  rfl

theorem unavailableIds_ne_nil {availability : List (Nat × Bool)} {k : Nat}
    (hmem : (k, false) ∈ availability) : unavailableIds availability ≠ [] := by
  apply List.ne_nil_of_mem (a := k)
  unfold unavailableIds
  exact List.mem_map_of_mem _ (List.mem_filter.mpr ⟨hmem, rfl⟩)

/-- Claim C1: after `Order.create`, `Order.add_item` and `Order.remove_item`
the stored total satisfies `total = subtotal + tax`, `tax = subtotal * 0.10`
and `subtotal = Σ total_price` over the current items.  (`add_item` /
`remove_item` mutate only when the state guard passes, so the claim is
stated for orders in CREATED or PENDING status, where they succeed.) -/
theorem C1_total_invariant (customer_id fresh_id now : Nat)
    (items : List OrderItem) (da : Option DeliveryAddress) (nts : Option String)
    (o : Order) (item : OrderItem) (item_id : Nat)
    (hstat : o.status = OrderStatus.CREATED ∨ o.status = OrderStatus.PENDING) :
    totalInvariant (Order.create customer_id items da nts fresh_id now) ∧
    (∃ o1, o.add_item item = .ok o1 ∧ totalInvariant o1) ∧
    (∃ o2, o.remove_item item_id = .ok o2 ∧ totalInvariant o2) := by
  have hg := guard_not hstat
  refine ⟨totalInvariant_of_recalc rfl,
    ⟨{ o with items := o.items ++ [item]
              total := computeOrderTotal (o.items ++ [item]) }, ?_, ?_⟩,
    ⟨{ o with items := o.items.filter (fun it => it.id != item_id)
              total := computeOrderTotal (o.items.filter (fun it => it.id != item_id)) },
      ?_, ?_⟩⟩
  · unfold Order.add_item
    rw [if_neg hg]
  · exact totalInvariant_of_recalc rfl
  · unfold Order.remove_item
    rw [if_neg hg]
  · exact totalInvariant_of_recalc rfl

/-- Witness for C1 at the spec's Scenario A order. -/
theorem C1_total_invariant_witness :
    totalInvariant (Order.create 5 [sampleItem] none none 9 0) ∧
    (∃ o1, wOrder.add_item sampleItem2 = .ok o1 ∧ totalInvariant o1) ∧
    (∃ o2, wOrder.remove_item 1 = .ok o2 ∧ totalInvariant o2) :=
  C1_total_invariant 5 9 0 [sampleItem] none none wOrder sampleItem2 1 (Or.inl rfl)

/-- Claim C6: `Order.cancel` fails (with the aggregate's invalid-state
`ValueError`) exactly when the status is DELIVERED; for every other status,
CANCELLED included, it succeeds, setting status CANCELLED and updating
`updated_at`. -/
theorem C6_cancel_terminality (o : Order) (now : Nat) :
    (o.status = OrderStatus.DELIVERED →
      o.cancel now = .error (.valueError
        "Cannot cancel an order that has already been delivered")) ∧
    (o.status ≠ OrderStatus.DELIVERED →
      o.cancel now
        = .ok { o with status := OrderStatus.CANCELLED, updated_at := some now }) := by
  constructor
  · intro h
    unfold Order.cancel
    rw [if_pos h]
  · intro h
    unfold Order.cancel
    rw [if_neg h]

/-- Witness for C6: cancelling an already CANCELLED order succeeds again. -/
theorem C6_cancel_terminality_witness :
    wCancelledIn.cancel 3
      = .ok { wCancelledIn with status := OrderStatus.CANCELLED, updated_at := some 3 } :=
  (C6_cancel_terminality wCancelledIn 3).2 (by decide)

/-- Claim C7: in CREATED or PENDING status, `Order.remove_item` with an id
matching no item is a no-op (given the stored total satisfies the invariant,
as it does in every reachable state by C1): it does not raise and returns the
order unchanged.  When the id does match, every matching item is removed and
the total is recomputed from the remaining items. -/
theorem C7_remove_item_idempotent (o : Order) (item_id : Nat)
    (hstat : o.status = OrderStatus.CREATED ∨ o.status = OrderStatus.PENDING) :
    ((∀ it ∈ o.items, it.id ≠ item_id) → o.total = computeOrderTotal o.items →
      o.remove_item item_id = .ok o) ∧
    (∀ o2, o.remove_item item_id = .ok o2 →
      o2.items = o.items.filter (fun it => it.id != item_id) ∧
      o2.total = computeOrderTotal o2.items) := by
  have hg := guard_not hstat
  constructor
  · intro hmem htot
    have hfilter : o.items.filter (fun it => it.id != item_id) = o.items := by
      apply List.filter_eq_self.mpr
      intro a ha
      simpa using hmem a ha
    unfold Order.remove_item
    rw [if_neg hg, hfilter, ← htot]
  · intro o2 h
    unfold Order.remove_item at h
    rw [if_neg hg] at h
    injection h with h
    subst h
    exact ⟨rfl, rfl⟩

/-- Witness for C7: removing the absent id 42 from the sample order is the
identity. -/
theorem C7_remove_item_idempotent_witness : wOrder.remove_item 42 = .ok wOrder :=
  (C7_remove_item_idempotent wOrder 42 (Or.inl rfl)).1 (by decide) rfl

/-- Claim C10: `Order.update_status` and a successful `Order.cancel` change
only `status` and `updated_at`; items, total, id, customer id, delivery
address, notes and `created_at` are untouched. -/
theorem C10_status_change_frame (o : Order) (s : OrderStatus) (now : Nat) :
    ((o.update_status s now).items = o.items ∧
     (o.update_status s now).total = o.total ∧
     (o.update_status s now).id = o.id ∧
     (o.update_status s now).customer_id = o.customer_id ∧
     (o.update_status s now).delivery_address = o.delivery_address ∧
     (o.update_status s now).notes = o.notes ∧
     (o.update_status s now).created_at = o.created_at) ∧
    (∀ o2, o.cancel now = .ok o2 →
      o2.items = o.items ∧ o2.total = o.total ∧ o2.id = o.id ∧
      o2.customer_id = o.customer_id ∧
      o2.delivery_address = o.delivery_address ∧ o2.notes = o.notes ∧
      o2.created_at = o.created_at ∧
      o2.status = OrderStatus.CANCELLED ∧ o2.updated_at = some now) := by
  constructor
  · exact ⟨rfl, rfl, rfl, rfl, rfl, rfl, rfl⟩
  · intro o2 h
    unfold Order.cancel at h
    split at h
    · exact Except.noConfusion h
    · injection h with h
      subst h
      exact ⟨rfl, rfl, rfl, rfl, rfl, rfl, rfl, rfl, rfl⟩

/-- Witness for C10: the order produced by cancelling the sample order keeps
its items. -/
theorem C10_status_change_frame_witness :
    ({ wOrder with status := OrderStatus.CANCELLED, updated_at := some 3 } : Order).items
      = wOrder.items :=
  (((C10_status_change_frame wOrder OrderStatus.READY 3).2
    { wOrder with status := OrderStatus.CANCELLED, updated_at := some 3 }) rfl).1

/-- Claim C2: when the inventory mapping reports a submitted item
unavailable, `create_order` raises `InventoryValidationException` carrying
the list of unavailable identifiers, and its effect trace holds only the
inventory check — the repository's `save` is never called and no event is
published. -/
theorem C2_create_order_all_or_nothing (customer_id fresh_id now : Nat)
    (items : List OrderItem) (da : Option DeliveryAddress) (nts : Option String)
    (availability : List (Nat × Bool))
    (hne : items ≠ [])
    (hbad : ∃ it ∈ items, (it.product_id, false) ∈ availability) :
    (OrderService.create_order customer_id items da nts availability fresh_id now).result
      = .error (.inventoryValidation "Some items are not available"
          (unavailableIds availability)) ∧
    (OrderService.create_order customer_id items da nts availability fresh_id now).effects
      = [Effect.inventoryCheck items] := by
  have hempty := isEmpty_false_of_ne_nil hne
  obtain ⟨it, _, hmem⟩ := hbad
  have hunav := isEmpty_false_of_ne_nil (unavailableIds_ne_nil hmem)
  constructor <;> simp [OrderService.create_order, hempty, hunav]

/-- Witness for C2: one submitted item, reported unavailable. -/
theorem C2_create_order_all_or_nothing_witness :
    (OrderService.create_order 5 [sampleItem] none none [(11, false)] 9 0).result
      = .error (.inventoryValidation "Some items are not available"
          (unavailableIds [(11, false)])) ∧
    (OrderService.create_order 5 [sampleItem] none none [(11, false)] 9 0).effects
      = [Effect.inventoryCheck [sampleItem]] :=
  C2_create_order_all_or_nothing 5 9 0 [sampleItem] none none [(11, false)]
    (by decide) ⟨sampleItem, by decide, by decide⟩

/-- Claim C3: when `confirm_order` finds the order but the re-validation
mapping reports one of its current items unavailable, it raises
`InventoryValidationException` listing the unavailable identifiers, and its
effect trace holds only the inventory check — the repository's `update` is
never called (so the persisted status is unchanged) and no event is
published. -/
theorem C3_confirm_order_atomicity (order_id now : Nat) (o : Order)
    (availability : List (Nat × Bool))
    (hbad : ∃ it ∈ o.items, (it.product_id, false) ∈ availability) :
    (OrderService.confirm_order order_id (some o) availability now).result
      = .error (.inventoryValidation "Some items are not available"
          (unavailableIds availability)) ∧
    (OrderService.confirm_order order_id (some o) availability now).effects
      = [Effect.inventoryCheck o.items] := by
  obtain ⟨it, _, hmem⟩ := hbad
  have hunav := isEmpty_false_of_ne_nil (unavailableIds_ne_nil hmem)
  constructor <;> simp [OrderService.confirm_order, hunav]

/-- Witness for C3: the sample order's item is reported unavailable. -/
theorem C3_confirm_order_atomicity_witness :
    (OrderService.confirm_order 7 (some wOrder) [(11, false)] 3).result
      = .error (.inventoryValidation "Some items are not available"
          (unavailableIds [(11, false)])) ∧
    (OrderService.confirm_order 7 (some wOrder) [(11, false)] 3).effects
      = [Effect.inventoryCheck wOrder.items] :=
  C3_confirm_order_atomicity 7 3 wOrder [(11, false)]
    ⟨sampleItem, by decide, by decide⟩

/-- Claim C4: the aggregate's `add_item` / `remove_item` succeed exactly when
the status is CREATED or PENDING (on failure they return an error and, being
pure, leave the order untouched), and the orchestration operations
`add_item_to_order` / `remove_item_from_order` enforce the same guard,
raising `InvalidOrderStateException` for a found order in any other
status. -/
theorem C4_state_guard (o : Order) (item : OrderItem) (item_id order_id : Nat)
    (availability : List (Nat × Bool)) :
    ((o.status = OrderStatus.CREATED ∨ o.status = OrderStatus.PENDING) ↔
      isOkB (o.add_item item) = true) ∧
    ((o.status = OrderStatus.CREATED ∨ o.status = OrderStatus.PENDING) ↔
      isOkB (o.remove_item item_id) = true) ∧
    (¬ (o.status = OrderStatus.CREATED ∨ o.status = OrderStatus.PENDING) →
      (OrderService.add_item_to_order order_id (some o) item availability).result
        = .error (.invalidOrderState
            ("Cannot add items to an order with status " ++ o.status.value)) ∧
      (OrderService.remove_item_from_order order_id (some o) item_id).result
        = .error (.invalidOrderState
            ("Cannot remove items from an order with status " ++ o.status.value))) := by
  by_cases h : o.status = OrderStatus.CREATED ∨ o.status = OrderStatus.PENDING
  · have hg := guard_not h
    refine ⟨?_, ?_, fun hc => absurd h hc⟩
    · simp [Order.add_item, if_neg hg, isOkB, h]
    · simp [Order.remove_item, if_neg hg, isOkB, h]
  · have hne : o.status ≠ OrderStatus.CREATED ∧ o.status ≠ OrderStatus.PENDING := by
      push_neg at h
      exact h
    refine ⟨?_, ?_, fun _ => ?_⟩
    · simp [Order.add_item, if_pos hne, isOkB, h]
    · simp [Order.remove_item, if_pos hne, isOkB, h]
    · constructor
      · simp [OrderService.add_item_to_order, if_pos hne]
      · simp [OrderService.remove_item_from_order, if_pos hne]

/-- Witness for C4: the guard trips on a CONFIRMED order and passes on a
CREATED one. -/
theorem C4_state_guard_witness :
    (OrderService.add_item_to_order 7 (some wConfirmed) sampleItem2 []).result
      = .error (.invalidOrderState
          ("Cannot add items to an order with status " ++ wConfirmed.status.value)) ∧
    isOkB (wOrder.add_item sampleItem2) = true :=
  ⟨((C4_state_guard wConfirmed sampleItem2 1 7 []).2.2 (by decide)).1,
   (C4_state_guard wOrder sampleItem2 1 7 []).1.mp (Or.inl rfl)⟩

/-- Counterexample to claim C5: with an availability mapping holding no
entry for the submitted item, `create_order` succeeds (the order is created
and saved) and `confirm_order` succeeds too — neither raises the
`InventoryValidationException` the claim requires, because both iterate only
the mapping's own entries. -/
theorem C5_missing_entry_counterexample :
    (OrderService.create_order 5 [sampleItem] none none [] 9 0).result
      = .ok (Order.create 5 [sampleItem] none none 9 0) ∧
    (OrderService.confirm_order 7 (some wOrder) [] 3).result
      = .ok (wOrder.update_status OrderStatus.CONFIRMED 3) := by
  constructor <;> rfl

/-- Claim C5 as amended: only `add_item_to_order` treats an item missing
from the availability mapping as unavailable (its `dict.get` defaults to
false, so it raises `InventoryValidationException`); `create_order` and
`confirm_order` inspect only the entries present in the mapping, so when no
entry is false they proceed even if submitted items have no entry at all. -/
theorem C5_default_lookup (order_id customer_id fresh_id now : Nat)
    (o : Order) (item : OrderItem) (items : List OrderItem)
    (da : Option DeliveryAddress) (nts : Option String)
    (availability : List (Nat × Bool))
    (hstat : o.status = OrderStatus.CREATED ∨ o.status = OrderStatus.PENDING)
    (hmiss : availability.lookup item.product_id = none)
    (hall : ∀ p ∈ availability, p.2 = true)
    (hne : items ≠ []) :
    (OrderService.add_item_to_order order_id (some o) item availability).result
      = .error (.inventoryValidation
          ("Item " ++ item.name ++ " is not available") [item.product_id]) ∧
    isOkB (OrderService.create_order customer_id items da nts availability
        fresh_id now).result = true ∧
    isOkB (OrderService.confirm_order order_id (some o) availability now).result
      = true := by
  have hg := guard_not hstat
  have hget : dictGet availability item.product_id = false := by
    unfold dictGet
    rw [hmiss]
  have hempty := isEmpty_false_of_ne_nil hne
  have hunil : (unavailableIds availability).isEmpty = true := by
    rw [unavailableIds_eq_nil hall]
    rfl
  refine ⟨?_, ?_, ?_⟩
  · simp [OrderService.add_item_to_order, if_neg hg, hget]
  · simp [OrderService.create_order, hempty, hunil, isOkB]
  · simp [OrderService.confirm_order, hunil, isOkB]

/-- Witness for the amended C5: product 12 has no entry in a mapping whose
single entry (product 11) is true. -/
theorem C5_default_lookup_witness :
    (OrderService.add_item_to_order 7 (some wOrder) sampleItem2 [(11, true)]).result
      = .error (.inventoryValidation
          ("Item " ++ sampleItem2.name ++ " is not available") [sampleItem2.product_id]) ∧
    isOkB (OrderService.create_order 5 [sampleItem] none none [(11, true)] 9 0).result
      = true ∧
    isOkB (OrderService.confirm_order 7 (some wOrder) [(11, true)] 3).result = true :=
  C5_default_lookup 7 5 9 0 wOrder sampleItem2 [sampleItem] none none [(11, true)]
    (Or.inl rfl) (by decide) (by decide) (by decide)

/-- Claim C8: `create_order` on an empty item list raises
`OrderCreationException` with an empty effect trace (no inventory call, no
persistence, no event), while the factory `Order.create` itself accepts an
empty list, producing a CREATED order with all-zero totals. -/
theorem C8_empty_items (customer_id fresh_id now : Nat)
    (da : Option DeliveryAddress) (nts : Option String)
    (availability : List (Nat × Bool)) :
    OrderService.create_order customer_id [] da nts availability fresh_id now
      = { result := .error (.orderCreation "Cannot create an order without items")
          effects := [] } ∧
    (Order.create customer_id [] da nts fresh_id now).status = OrderStatus.CREATED ∧
    (Order.create customer_id [] da nts fresh_id now).total
      = { subtotal := 0, tax := 0, total := 0 } := by
  refine ⟨rfl, rfl, ?_⟩
  simp [Order.create, computeOrderTotal, sumTotalPrice]

/-- Claim C9: `confirm_order` checks no status precondition: whenever the
order is found and every availability entry is true, it succeeds and sets
status CONFIRMED — whatever the current status, DELIVERED and CANCELLED
included. -/
theorem C9_confirm_order_no_status_guard (order_id now : Nat) (o : Order)
    (availability : List (Nat × Bool))
    (hall : ∀ p ∈ availability, p.2 = true) :
    (OrderService.confirm_order order_id (some o) availability now).result
      = .ok (o.update_status OrderStatus.CONFIRMED now) ∧
    (o.update_status OrderStatus.CONFIRMED now).status = OrderStatus.CONFIRMED := by
  have hunil : (unavailableIds availability).isEmpty = true := by
    rw [unavailableIds_eq_nil hall]
    rfl
  exact ⟨by simp [OrderService.confirm_order, hunil], rfl⟩

/-- Witness for C9: a DELIVERED order is confirmed regardless. -/
theorem C9_confirm_order_no_status_guard_witness :
    (OrderService.confirm_order 7 (some wDelivered) [(11, true)] 3).result
      = .ok (wDelivered.update_status OrderStatus.CONFIRMED 3) ∧
    (wDelivered.update_status OrderStatus.CONFIRMED 3).status
      = OrderStatus.CONFIRMED :=
  C9_confirm_order_no_status_guard 7 3 wDelivered [(11, true)] (by decide)

end OrderServiceV2
